import Mathlib

/-!
Shallow embedding of the hacklet_rs protocol layer: the message catalog
(`src/messages/requests.rs`, `src/messages/responses.rs`) and the device
session operations (`src/dongle.rs`).  Bytes are modelled as `Nat` values;
buffers as `List Nat`.  Each Rust `read` function (a nom parser returning
`IResult<&[u8], Self>`) is modelled as a function into `ReadResult`, where
`ReadResult.ok remaining value` mirrors `Ok((remaining, value))` and
`ReadResult.incomplete n` mirrors `Err(Err::Incomplete(Needed::new(n)))`.
-/

/-- `u16::from_be_bytes([hi, lo])`. -/
def be16 (hi lo : Nat) : Nat := hi * 256 + lo

/-- `u16::from_le_bytes([lo, hi])`. -/
def le16 (lo hi : Nat) : Nat := lo + hi * 256

/-- `u32::from_le_bytes([b0, b1, b2, b3])`. -/
def le32 (b0 b1 b2 b3 : Nat) : Nat :=
  b0 + b1 * 256 + b2 * 65536 + b3 * 16777216

/-- `u64::from_be_bytes` applied to eight bytes. -/
def be64 (b0 b1 b2 b3 b4 b5 b6 b7 : Nat) : Nat :=
  ((((((b0 * 256 + b1) * 256 + b2) * 256 + b3) * 256 + b4) * 256 + b5)
    * 256 + b6) * 256 + b7

/-- `buffer.write_u16::<BigEndian>(x)`: the two big-endian bytes of a u16. -/
def writeU16BE (x : Nat) : List Nat := [x / 256 % 256, x % 256]

/-- `buffer.write_u32::<BigEndian>(x)`: the four big-endian bytes of a u32. -/
def writeU32BE (x : Nat) : List Nat :=
  [x / 16777216 % 256, x / 65536 % 256, x / 256 % 256, x % 256]

/-- `buffer.write_u32::<LittleEndian>(x)`: the four little-endian bytes of a u32. -/
def writeU32LE (x : Nat) : List Nat :=
  [x % 256, x / 256 % 256, x / 65536 % 256, x / 16777216 % 256]

/-- `buffer.write_u16::<LittleEndian>(x)`: the two little-endian bytes of a u16. -/
def writeU16LE (x : Nat) : List Nat := [x % 256, x / 256 % 256]

/-- `buffer.iter().fold(0, |acc, &x| acc ^ x)`. -/
def xorFold (l : List Nat) : Nat := l.foldl Nat.xor 0

/-- Result of a nom-style `read`: `ok remaining value` for `Ok((remaining, value))`,
`incomplete n` for `Err(Err::Incomplete(Needed::new(n)))`. -/
inductive ReadResult (α : Type) where
  | incomplete (needed : Nat)
  | ok (remaining : List Nat) (value : α)
deriving DecidableEq

/-- `requests.rs` `BootRequest`. -/
structure BootRequest where
  header : Nat
  command : Nat
  payload_length : Nat
  checksum : Nat
deriving DecidableEq

/-- `BootRequest::calculate_checksum`. -/
def BootRequest.calculate_checksum (r : BootRequest) : Nat :=
  xorFold (writeU16BE r.command ++ [r.payload_length])

/-- `BootRequest::new`. -/
def BootRequest.new : BootRequest :=
  let req : BootRequest :=
    { header := 0x02, command := 0x4004, payload_length := 0, checksum := 0 }
  { req with checksum := req.calculate_checksum }

/-- `BootRequest::as_bytes`. -/
def BootRequest.as_bytes (r : BootRequest) : List Nat :=
  [r.header] ++ writeU16BE r.command ++ [r.payload_length] ++ [r.checksum]

/-- `BootRequest::read` (`requests.rs` lines 51-63). -/
def BootRequest.read (input : List Nat) : ReadResult BootRequest :=
  if input = [] ∨ input.length < 5 then .incomplete 5
  else
    .ok input
      { header := input.getD 0 0
        command := be16 (input.getD 1 0) (input.getD 2 0)
        payload_length := input.getD 3 0
        checksum := input.getD 4 0 }

/-- `requests.rs` `UnlockRequest`. -/
structure UnlockRequest where
  header : Nat
  command : Nat
  payload_length : Nat
  data : Nat
  checksum : Nat
deriving DecidableEq

/-- `UnlockRequest::calculate_checksum` (`requests.rs` lines 157-164). -/
def UnlockRequest.calculate_checksum (r : UnlockRequest) : Nat :=
  xorFold (writeU16BE r.command ++ [r.payload_length] ++ writeU32BE r.data)

/-- `UnlockRequest::new`. -/
def UnlockRequest.new : UnlockRequest :=
  let req : UnlockRequest :=
    { header := 0x02, command := 0xA236, payload_length := 4
      data := 0xFCFF9001, checksum := 0 }
  { req with checksum := req.calculate_checksum }

/-- `UnlockRequest::as_bytes` (`requests.rs` lines 144-154). -/
def UnlockRequest.as_bytes (r : UnlockRequest) : List Nat :=
  [r.header] ++ writeU16BE r.command ++ [r.payload_length]
    ++ writeU32BE r.data ++ [r.checksum]

/-- `requests.rs` `SamplesRequest`. -/
structure SamplesRequest where
  header : Nat
  command : Nat
  payload_length : Nat
  network_id : Nat
  channel_id : Nat
  data : Nat
  checksum : Nat
deriving DecidableEq

/-- `SamplesRequest::calculate_checksum`. -/
def SamplesRequest.calculate_checksum (r : SamplesRequest) : Nat :=
  xorFold (writeU16BE r.command ++ [r.payload_length] ++ writeU16BE r.network_id
    ++ writeU16BE r.channel_id ++ writeU16BE r.data)

/-- `SamplesRequest::new`. -/
def SamplesRequest.new (network_id channel_id : Nat) : SamplesRequest :=
  let req : SamplesRequest :=
    { header := 0x02, command := 0x4024, payload_length := 6
      network_id, channel_id, data := 0x0A00, checksum := 0 }
  { req with checksum := req.calculate_checksum }

/-- `SamplesRequest::as_bytes`. -/
def SamplesRequest.as_bytes (r : SamplesRequest) : List Nat :=
  [r.header] ++ writeU16BE r.command ++ [r.payload_length]
    ++ writeU16BE r.network_id ++ writeU16BE r.channel_id
    ++ writeU16BE r.data ++ [r.checksum]

/-- `SamplesRequest::read` (`requests.rs` lines 429-445): note the field
offsets 3-9, shifted one byte left of the layout `as_bytes` emits. -/
def SamplesRequest.read (input : List Nat) : ReadResult SamplesRequest :=
  if input = [] ∨ input.length < 10 then .incomplete 27
  else
    .ok input
      { header := input.getD 0 0
        command := be16 (input.getD 1 0) (input.getD 2 0)
        payload_length := input.getD 3 0
        network_id := be16 (input.getD 3 0) (input.getD 4 0)
        channel_id := be16 (input.getD 5 0) (input.getD 6 0)
        data := be16 (input.getD 7 0) (input.getD 8 0)
        checksum := input.getD 9 0 }

/-- `requests.rs` `ScheduleRequest`. -/
structure ScheduleRequest where
  header : Nat
  command : Nat
  payload_length : Nat
  network_id : Nat
  channel_id : Nat
  schedule : List Nat
  checksum : Nat
deriving DecidableEq

/-- `ScheduleRequest::calculate_checksum`. -/
def ScheduleRequest.calculate_checksum (r : ScheduleRequest) : Nat :=
  xorFold (writeU16BE r.command ++ [r.payload_length] ++ writeU16BE r.network_id
    ++ writeU16BE r.channel_id ++ r.schedule)

/-- `ScheduleRequest::new` (`requests.rs` lines 460-473): the default
schedule is `vec![0x00, 56]`, a two-element vector. -/
def ScheduleRequest.new (network_id channel_id : Nat) : ScheduleRequest :=
  let req : ScheduleRequest :=
    { header := 0x02, command := 0x4023, payload_length := 59
      network_id, channel_id, schedule := [0x00, 56], checksum := 0 }
  { req with checksum := req.calculate_checksum }

/-- `ScheduleRequest::as_bytes`. -/
def ScheduleRequest.as_bytes (r : ScheduleRequest) : List Nat :=
  [r.header] ++ writeU16BE r.command ++ [r.payload_length]
    ++ writeU16BE r.network_id ++ writeU16BE r.channel_id
    ++ r.schedule ++ [r.checksum]

/-- `ScheduleRequest::always_on` (`requests.rs` lines 486-492): builds
`vec![0x7f, 56]` (two elements) and assigns `bitmap[5] = 0x25`; the
out-of-bounds index is modelled as `none` (a Rust panic). -/
def ScheduleRequest.always_on (r : ScheduleRequest) : Option ScheduleRequest :=
  let bitmap : List Nat := [0x7f, 56]
  if 5 < bitmap.length then some { r with schedule := bitmap.set 5 0x25 }
  else none

/-- `ScheduleRequest::always_off` (`requests.rs` lines 493-499): builds
`vec![0x7f, 56]` and assigns `bitmap[5] = 0xa5`; out-of-bounds is `none`. -/
def ScheduleRequest.always_off (r : ScheduleRequest) : Option ScheduleRequest :=
  let bitmap : List Nat := [0x7f, 56]
  if 5 < bitmap.length then some { r with schedule := bitmap.set 5 0xa5 }
  else none

/-- `ScheduleRequest::read` (`requests.rs` lines 513-529). -/
def ScheduleRequest.read (input : List Nat) : ReadResult ScheduleRequest :=
  if input = [] ∨ input.length < 65 then .incomplete 65
  else
    .ok input
      { header := input.getD 0 0
        command := be16 (input.getD 1 0) (input.getD 2 0)
        payload_length := input.getD 3 0
        network_id := be16 (input.getD 4 0) (input.getD 5 0)
        channel_id := be16 (input.getD 6 0) (input.getD 7 0)
        schedule := (input.drop 8).take 56
        checksum := input.getD 64 0 }

/-- `responses.rs` `BootResponse`. -/
structure BootResponse where
  header : Nat
  command : Nat
  payload_length : Nat
  data : List Nat
  device_id : Nat
  data2 : Nat
  checksum : Nat
deriving DecidableEq

/-- `BootResponse::calculate_checksum`. -/
def BootResponse.calculate_checksum (r : BootResponse) : Nat :=
  xorFold (writeU16BE r.command ++ [r.payload_length] ++ r.data
    ++ writeU32BE (r.device_id / 4294967296) ++ writeU32BE (r.device_id % 4294967296)
    ++ writeU16BE r.data2)

/-- `BootResponse::read` (`responses.rs` lines 65-81). -/
def BootResponse.read (input : List Nat) : ReadResult BootResponse :=
  if input = [] ∨ input.length < 27 then .incomplete 27
  else
    .ok input
      { header := input.getD 0 0
        command := be16 (input.getD 1 0) (input.getD 2 0)
        payload_length := input.getD 3 0
        data := (input.drop 4).take 12
        device_id := be64 (input.getD 16 0) (input.getD 17 0) (input.getD 18 0)
          (input.getD 19 0) (input.getD 20 0) (input.getD 21 0)
          (input.getD 22 0) (input.getD 23 0)
        data2 := be16 (input.getD 24 0) (input.getD 25 0)
        checksum := input.getD 26 0 }

/-- `responses.rs` `BootConfirmResponse`. -/
structure BootConfirmResponse where
  header : Nat
  command : Nat
  payload_length : Nat
  data : Nat
  checksum : Nat
deriving DecidableEq

/-- `BootConfirmResponse::calculate_checksum`. -/
def BootConfirmResponse.calculate_checksum (r : BootConfirmResponse) : Nat :=
  xorFold (writeU16BE r.command ++ [r.payload_length] ++ [r.data])

/-- `BootConfirmResponse::new`. -/
def BootConfirmResponse.new : BootConfirmResponse :=
  let resp : BootConfirmResponse :=
    { header := 0x02, command := 0x4080, payload_length := 1
      data := 0x10, checksum := 0 }
  { resp with checksum := resp.calculate_checksum }

/-- `BootConfirmResponse::as_bytes`. -/
def BootConfirmResponse.as_bytes (r : BootConfirmResponse) : List Nat :=
  [r.header] ++ writeU16BE r.command ++ [r.payload_length] ++ [r.data] ++ [r.checksum]

/-- `BootConfirmResponse::read` (`responses.rs` lines 127-141): stores the
trailing byte in `checksum` without comparing it to `calculate_checksum`. -/
def BootConfirmResponse.read (input : List Nat) : ReadResult BootConfirmResponse :=
  if input = [] ∨ input.length < 6 then .incomplete 6
  else
    .ok input
      { header := input.getD 0 0
        command := be16 (input.getD 1 0) (input.getD 2 0)
        payload_length := input.getD 3 0
        data := input.getD 4 0
        checksum := input.getD 5 0 }

/-- `responses.rs` `BroadcastResponse`. -/
structure BroadcastResponse where
  header : Nat
  command : Nat
  payload_length : Nat
  network_id : Nat
  device_id : Nat
  data : Nat
  checksum : Nat
deriving DecidableEq

/-- `BroadcastResponse::read` (`responses.rs` lines 195-211). -/
def BroadcastResponse.read (input : List Nat) : ReadResult BroadcastResponse :=
  if input = [] ∨ input.length < 16 then .incomplete 16
  else
    .ok input
      { header := input.getD 0 0
        command := be16 (input.getD 1 0) (input.getD 2 0)
        payload_length := input.getD 3 0
        network_id := be16 (input.getD 4 0) (input.getD 5 0)
        device_id := be64 (input.getD 6 0) (input.getD 7 0) (input.getD 8 0)
          (input.getD 9 0) (input.getD 10 0) (input.getD 11 0)
          (input.getD 12 0) (input.getD 13 0)
        data := input.getD 14 0
        checksum := input.getD 15 0 }

/-- `responses.rs` `SamplesResponse`. -/
structure SamplesResponse where
  header : Nat
  command : Nat
  payload_length : Nat
  network_id : Nat
  channel_id : Nat
  data : Nat
  time : Nat
  sample_count : Nat
  stored_sample_count : Nat
  samples : List Nat
  checksum : Nat
deriving DecidableEq

/-- The sample-word loop of `SamplesResponse::read`: collects `count`
little-endian u16 words starting at byte offset `start`. -/
def readSampleWords (input : List Nat) (start : Nat) : Nat → List Nat
  | 0 => []
  | count + 1 =>
    le16 (input.getD start 0) (input.getD (start + 1) 0)
      :: readSampleWords input (start + 2) count

/-- `SamplesResponse::calculate_checksum`. -/
def SamplesResponse.calculate_checksum (r : SamplesResponse) : Nat :=
  xorFold (writeU16BE r.command ++ [r.payload_length] ++ writeU16BE r.network_id
    ++ writeU16BE r.channel_id ++ writeU16BE r.data ++ writeU32LE r.time
    ++ [r.sample_count]
    ++ [r.stored_sample_count % 256, r.stored_sample_count / 256 % 256,
        r.stored_sample_count / 65536 % 256]
    ++ (r.samples.map writeU16LE).flatten)

/-- `SamplesResponse::as_bytes` (`responses.rs` lines 575-600). -/
def SamplesResponse.as_bytes (r : SamplesResponse) : List Nat :=
  [r.header] ++ writeU16BE r.command ++ [r.payload_length]
    ++ writeU16BE r.network_id ++ writeU16BE r.channel_id ++ writeU16BE r.data
    ++ writeU32LE r.time ++ [r.sample_count]
    ++ [r.stored_sample_count % 256, r.stored_sample_count / 256 % 256,
        r.stored_sample_count / 65536 % 256]
    ++ (r.samples.map writeU16LE).flatten ++ [r.checksum]

/-- `SamplesResponse::read` (`responses.rs` lines 628-660): note
`stored_sample_count` is built as `u32::from_le_bytes([0, input[15], input[16],
input[17]])`, placing the three stored-count bytes at positions 1..3. -/
def SamplesResponse.read (input : List Nat) : ReadResult SamplesResponse :=
  if input = [] ∨ input.length < 18 then .incomplete 18
  else
    let sample_count := input.getD 14 0
    let sample_bytes_end := 18 + sample_count * 2
    if input.length < sample_bytes_end + 1 then .incomplete (sample_bytes_end + 1)
    else
      .ok input
        { header := input.getD 0 0
          command := be16 (input.getD 1 0) (input.getD 2 0)
          payload_length := input.getD 3 0
          network_id := be16 (input.getD 4 0) (input.getD 5 0)
          channel_id := be16 (input.getD 6 0) (input.getD 7 0)
          data := be16 (input.getD 8 0) (input.getD 9 0)
          time := le32 (input.getD 10 0) (input.getD 11 0) (input.getD 12 0)
            (input.getD 13 0)
          sample_count
          stored_sample_count := le32 0 (input.getD 15 0) (input.getD 16 0)
            (input.getD 17 0)
          samples := readSampleWords input 18 sample_count
          checksum := input.getD sample_bytes_end 0 }

/-- One transaction performed by a `Dongle` session operation (`dongle.rs`):
`unlock` for `unlock_network`, `lock` for `lock_network`, `updateTime nid`
for `update_time(nid)`. -/
inductive Tx where
  | unlock
  | lock
  | updateTime (network_id : Nat)
deriving DecidableEq

/-- One iteration's input to the commission loop (`dongle.rs` lines 42-55):
the four header bytes returned by `serial.receive(4)` and the
`buffer[3] + 1` further bytes returned by the second `receive`. -/
structure RxFrame where
  b0 : Nat
  b1 : Nat
  b2 : Nat
  b3 : Nat
  rest : List Nat
deriving DecidableEq

/-- The full buffer the commission loop assembles for one frame. -/
def RxFrame.bytes (f : RxFrame) : List Nat :=
  [f.b0, f.b1, f.b2, f.b3] ++ f.rest

/-- Outcome of the commission discovery loop. -/
inductive LoopResult where
  | panicked
  | found (r : BroadcastResponse)
  | deadline
deriving DecidableEq

/-- The `while start_time.elapsed() < timeout` loop of `Dongle::commission`
(`dongle.rs` lines 42-55).  Each event pairs the elapsed seconds at the
loop-condition check with the frame the two `receive` calls return; an
exhausted event list stands for a transport that delivers nothing further
before the deadline.  The body tests only `buffer[1] == 0xa0`, and on a hit
calls `BroadcastResponse::read(&buffer).unwrap()`, whose `unwrap` of an
`Incomplete` result is a panic (`LoopResult.panicked`). -/
def Dongle.commissionLoop : List (Nat × RxFrame) → LoopResult
  | [] => .deadline
  | (elapsed, f) :: events =>
    if elapsed < 30 then
      if f.b1 = 0xa0 then
        match BroadcastResponse.read f.bytes with
        | .ok _ r => .found r
        | .incomplete _ => .panicked
      else Dongle.commissionLoop events
    else .deadline

/-- `Dongle::commission` (`dongle.rs` lines 35-61) as the sequence of
transactions it performs: `unlock_network()`, the discovery loop, then
`update_time` if a device was found, then `lock_network()`.  A loop panic
aborts the run (`none`): no further transaction happens. -/
def Dongle.commission (events : List (Nat × RxFrame)) : Option (List Tx) :=
  match Dongle.commissionLoop events with
  | .panicked => none
  | .found r => some [Tx.unlock, Tx.updateTime r.network_id, Tx.lock]
  | .deadline => some [Tx.unlock, Tx.lock]

/-- `Dongle::switch` (`dongle.rs` lines 95-112) up to its transmit: builds
`ScheduleRequest::new(network_id, channel_id)`, applies `always_on` or
`always_off`, and serializes the result; an `always_on`/`always_off` panic
is `none`. -/
def Dongle.switch (network_id channel_id : Nat) (state : Bool) : Option (List Nat) :=
  let request := ScheduleRequest.new network_id channel_id
  match (if state then request.always_on else request.always_off) with
  | some req => some req.as_bytes
  | none => none

/-- Claim C1: decode∘encode is claimed to be the identity for every message
kind, but `SamplesRequest::read` pulls its fields from offsets 3-9 while
`as_bytes` writes them at offsets 4-10: reading back the encoding of
`SamplesRequest::new(0x0010, 0x0001)` yields `network_id = 0x0600`, not
`0x0010` (the decoded `network_id` merges the payload-length byte with the
high network byte). -/
theorem c1_samples_request_roundtrip_fails :
    SamplesRequest.read ((SamplesRequest.new 0x0010 0x0001).as_bytes)
      = .ok ((SamplesRequest.new 0x0010 0x0001).as_bytes)
          { header := 0x02, command := 0x4024, payload_length := 6,
            network_id := 0x0600, channel_id := 0x1000, data := 0x010A,
            checksum := 0x00 }
    ∧ (SamplesRequest.new 0x0010 0x0001).network_id = 0x0010
    ∧ (0x0600 : Nat) ≠ 0x0010 := by decide

/-- Claim C2: a frame whose trailing checksum byte disagrees with the
recomputed checksum is claimed to be rejected, but `BootConfirmResponse::read`
accepts the very buffer the repository's own test
(`messages/mod.rs`, `boot_confirm_response_detects_invalid_checksum`)
expects to fail: the trailing byte 0x01 differs from the recomputed 0xD1,
yet `read` returns the parsed message. -/
theorem c2_bad_checksum_frame_accepted :
    BootConfirmResponse.read [0x02, 0x40, 0x80, 0x01, 0x10, 0x01]
      = .ok [0x02, 0x40, 0x80, 0x01, 0x10, 0x01]
          { header := 0x02, command := 0x4080, payload_length := 1,
            data := 0x10, checksum := 0x01 }
    ∧ BootConfirmResponse.calculate_checksum
        { header := 0x02, command := 0x4080, payload_length := 1,
          data := 0x10, checksum := 0x01 } = 0xD1
    ∧ (0x01 : Nat) ≠ 0xD1 := by decide

/-- Counterexample to claim C3: `as_bytes` emits the stored `checksum` field
without recomputing it, so after mutating a field the emitted trailing byte
is stale.  For `UnlockRequest::new()` with `data` overwritten to 0, the
frame still ends with 0x02 (the checksum of the original fields) while the
XOR-fold of the current `command ‖ payload_length ‖ payload` is 0x90. -/
theorem c3_mutated_message_stale_checksum :
    ({ UnlockRequest.new with data := 0 } : UnlockRequest).as_bytes.getLast?
      = some 0x02
    ∧ UnlockRequest.calculate_checksum { UnlockRequest.new with data := 0 } = 0x90
    ∧ (0x02 : Nat) ≠ 0x90 := by decide

/-- Claim C3 (amended): the serialized frame ends with the stored checksum
field, and that byte equals the XOR-fold of `command(2, big-endian) ‖
payload_length(1) ‖ payload` exactly when the stored checksum is the one the
constructor computed (`checksum = calculate_checksum`); `as_bytes` does not
recompute it after a field mutation. -/
theorem c3_frame_ends_with_checksum_xor_fold (r : UnlockRequest)
    (h : r.checksum = r.calculate_checksum) :
    r.as_bytes.getLast?
      = some (xorFold (writeU16BE r.command ++ [r.payload_length]
          ++ writeU32BE r.data)) := by
  show r.as_bytes.getLast? = some r.calculate_checksum
  rw [← h]
  rfl

/-- Witness for C3: `UnlockRequest::new()` satisfies the hypothesis, and its
frame ends with the XOR-fold of its command, length and payload bytes. -/
theorem c3_frame_ends_with_checksum_xor_fold_witness :
    UnlockRequest.new.as_bytes.getLast?
      = some (xorFold (writeU16BE UnlockRequest.new.command
          ++ [UnlockRequest.new.payload_length]
          ++ writeU32BE UnlockRequest.new.data)) :=
  c3_frame_ends_with_checksum_xor_fold UnlockRequest.new (by decide)

/-- Claim C4: `always_on`/`always_off` are claimed to install a full 56-byte
bitmap and `switch` to run without panicking, but both build `vec![0x7f, 56]`
— a two-element vector — and then index `bitmap[5]`, an out-of-bounds write
(a panic) for every network id and channel id, so `switch` never reaches its
transmit. -/
theorem c4_switch_bitmap_out_of_bounds :
    Dongle.switch 0x0010 0x0001 true = none
    ∧ Dongle.switch 0x0010 0x0001 false = none
    ∧ ScheduleRequest.always_on (ScheduleRequest.new 0x0010 0x0001) = none
    ∧ ([0x7f, 56] : List Nat).length = 2 := by decide

/-- Claim C5: `stored_sample_count` is claimed to be the little-endian value
of the three stored-count bytes, but `SamplesResponse::read` builds
`u32::from_le_bytes([0, input[15], input[16], input[17]])`, shifting the
value left by 8 bits: a response whose stored-count bytes encode 5 decodes
to 1280, and `request_samples` reports that figure as the remainder. -/
theorem c5_stored_sample_count_decoded_shifted :
    SamplesResponse.read
        [0x02, 0x40, 0xA4, 0x12, 0x00, 0x10, 0x00, 0x01, 0x0A, 0x00,
         0x00, 0x00, 0x00, 0x00, 0x02, 0x05, 0x00, 0x00,
         0x28, 0x03, 0x2A, 0x04, 0x00]
      = .ok
          [0x02, 0x40, 0xA4, 0x12, 0x00, 0x10, 0x00, 0x01, 0x0A, 0x00,
           0x00, 0x00, 0x00, 0x00, 0x02, 0x05, 0x00, 0x00,
           0x28, 0x03, 0x2A, 0x04, 0x00]
          { header := 0x02, command := 0x40A4, payload_length := 0x12,
            network_id := 0x0010, channel_id := 0x0001, data := 0x0A00,
            time := 0, sample_count := 2, stored_sample_count := 1280,
            samples := [0x0328, 0x042A], checksum := 0x00 }
    ∧ le32 0x05 0x00 0x00 0x00 = 5
    ∧ (1280 : Nat) ≠ 5 := by decide

/-- Claim C6: every strict prefix of a frame is claimed to decode to an
Incomplete signal, but `SamplesRequest::read` only requires 10 bytes while
`as_bytes` emits an 11-byte frame: the 10-byte strict prefix of the encoding
of `SamplesRequest::new(0x0010, 0x0001)` parses successfully (into a
misaligned message) instead of yielding Incomplete. -/
theorem c6_truncated_samples_request_accepted :
    ((SamplesRequest.new 0x0010 0x0001).as_bytes).length = 11
    ∧ SamplesRequest.read (((SamplesRequest.new 0x0010 0x0001).as_bytes).take 10)
      = .ok (((SamplesRequest.new 0x0010 0x0001).as_bytes).take 10)
          { header := 0x02, command := 0x4024, payload_length := 6,
            network_id := 0x0600, channel_id := 0x1000, data := 0x010A,
            checksum := 0x00 } := by decide

/-- Counterexample to claim C7: `BootResponse::read` accepts a 27-byte
buffer whose command code is 0x1234 — not BootResponse's catalog code
0x4084 — and returns a typed message carrying the foreign code. -/
theorem c7_foreign_command_code_accepted :
    BootResponse.read
        ([0x02, 0x12, 0x34, 22] ++ List.replicate 12 0
          ++ [0, 0, 0, 0, 0, 0, 0, 1, 0, 0, 0x00])
      = .ok
          ([0x02, 0x12, 0x34, 22] ++ List.replicate 12 0
            ++ [0, 0, 0, 0, 0, 0, 0, 1, 0, 0, 0x00])
          { header := 0x02, command := 0x1234, payload_length := 22,
            data := List.replicate 12 0, device_id := 1, data2 := 0,
            checksum := 0 }
    ∧ (0x1234 : Nat) ≠ 0x4084 := by decide

/-- Claim C7 (amended): the decoders do not dispatch on or validate the
command code: on any sufficiently long buffer, `BootResponse::read` and
`BroadcastResponse::read` succeed and store the decoded command code
verbatim, whatever its value; the only command-code test in the program is
the commission loop's check of the high byte 0xA0. -/
theorem c7_read_ignores_command_code :
    (∀ input : List Nat, 27 ≤ input.length →
      ∃ r, BootResponse.read input = .ok input r
        ∧ r.command = be16 (input.getD 1 0) (input.getD 2 0))
    ∧ (∀ input : List Nat, 16 ≤ input.length →
      ∃ r, BroadcastResponse.read input = .ok input r
        ∧ r.command = be16 (input.getD 1 0) (input.getD 2 0)) := by
  constructor
  · intro input hlen
    have hne : ¬(input = [] ∨ input.length < 27) := by
      rintro (rfl | hlt)
      · simp at hlen
      · omega
    refine ⟨{ header := input.getD 0 0
              command := be16 (input.getD 1 0) (input.getD 2 0)
              payload_length := input.getD 3 0
              data := (input.drop 4).take 12
              device_id := be64 (input.getD 16 0) (input.getD 17 0)
                (input.getD 18 0) (input.getD 19 0) (input.getD 20 0)
                (input.getD 21 0) (input.getD 22 0) (input.getD 23 0)
              data2 := be16 (input.getD 24 0) (input.getD 25 0)
              checksum := input.getD 26 0 }, ?_, rfl⟩
    unfold BootResponse.read
    rw [if_neg hne]
  · intro input hlen
    have hne : ¬(input = [] ∨ input.length < 16) := by
      rintro (rfl | hlt)
      · simp at hlen
      · omega
    refine ⟨{ header := input.getD 0 0
              command := be16 (input.getD 1 0) (input.getD 2 0)
              payload_length := input.getD 3 0
              network_id := be16 (input.getD 4 0) (input.getD 5 0)
              device_id := be64 (input.getD 6 0) (input.getD 7 0)
                (input.getD 8 0) (input.getD 9 0) (input.getD 10 0)
                (input.getD 11 0) (input.getD 12 0) (input.getD 13 0)
              data := input.getD 14 0
              checksum := input.getD 15 0 }, ?_, rfl⟩
    unfold BroadcastResponse.read
    rw [if_neg hne]

/-- Witness for C7: a concrete 27-byte all-zero buffer (command code 0) is
accepted by `BootResponse::read` with the code stored verbatim. -/
theorem c7_read_ignores_command_code_witness :
    ∃ r, BootResponse.read (List.replicate 27 0)
        = .ok (List.replicate 27 0) r
      ∧ r.command = be16 ((List.replicate 27 0).getD 1 0)
          ((List.replicate 27 0).getD 2 0) :=
  c7_read_ignores_command_code.1 (List.replicate 27 0) (by decide)

/-- Claim C8: every completing run of `Dongle::commission` — whether the
discovery loop reaches the 30-second deadline or exits early on a received
broadcast — performs the lock-network transaction as its terminal step.
(A run that panics inside the loop does not complete and returns no
transaction list.) -/
theorem c8_commission_ends_with_lock (events : List (Nat × RxFrame))
    (txs : List Tx) (h : Dongle.commission events = some txs) :
    txs.getLast? = some Tx.lock := by
  unfold Dongle.commission at h
  cases hl : Dongle.commissionLoop events <;> rw [hl] at h
  · exact Option.noConfusion h
  · have h2 := Option.some.inj h
    subst h2
    rfl
  · have h2 := Option.some.inj h
    subst h2
    rfl

/-- Witness for C8: with no frame arriving before the deadline, commission
performs unlock then lock, and the final transaction is the lock. -/
theorem c8_commission_ends_with_lock_witness :
    ([Tx.unlock, Tx.lock] : List Tx).getLast? = some Tx.lock :=
  c8_commission_ends_with_lock [] [Tx.unlock, Tx.lock] (by decide)

/-- Counterexample to claim C9: the commission loop's early-exit test is
`buffer[1] == 0xa0`, not the full Broadcast code 0xA013.  A frame carrying
command 0xA0F9 (the Lock-response code) received 2 seconds in ends the loop
early, decoded as a "broadcast" — the claim says only 0xA013 may do so. -/
theorem c9_nonbroadcast_code_ends_loop :
    Dongle.commissionLoop
        [(2, ⟨0x02, 0xA0, 0xF9, 0x0B,
              [0x00, 0x99, 0, 0, 0, 0, 0, 0, 0, 1, 0x00, 0x00]⟩)]
      = .found
          { header := 0x02, command := 0xA0F9, payload_length := 0x0B,
            network_id := 0x99, device_id := 1, data := 0, checksum := 0 }
    ∧ (0xA0F9 : Nat) ≠ 0xA013 := by decide

/-- Claim C9 (amended): the discovery loop exits early exactly when a frame
read before the deadline has 0xA0 as the first (high) command byte — not
when the full command code is 0xA013.  When no frame has that high byte the
loop runs to the deadline; when one does and the frame decodes, the loop
returns the decoded broadcast, whose `network_id` is taken from the frame's
payload bytes. -/
theorem c9_loop_exit_on_high_byte :
    (∀ events : List (Nat × RxFrame),
      (∀ e ∈ events, (e.2).b1 ≠ 0xa0) →
      Dongle.commissionLoop events = .deadline)
    ∧ (∀ (elapsed : Nat) (f : RxFrame) (events : List (Nat × RxFrame))
        (rem : List Nat) (r : BroadcastResponse),
        elapsed < 30 → f.b1 = 0xa0 →
        BroadcastResponse.read f.bytes = .ok rem r →
        Dongle.commissionLoop ((elapsed, f) :: events) = .found r) := by
  constructor
  · intro events h
    induction events with
    | nil => rfl
    | cons e es ih =>
      obtain ⟨t, f⟩ := e
      have hb : f.b1 ≠ 0xa0 := h (t, f) (List.mem_cons_self _ _)
      have hrest : ∀ e ∈ es, (e.2).b1 ≠ 0xa0 :=
        fun e he => h e (List.mem_cons_of_mem _ he)
      unfold Dongle.commissionLoop
      by_cases ht : t < 30
      · rw [if_pos ht, if_neg hb]
        exact ih hrest
      · rw [if_neg ht]
  · intro elapsed f events rem r ht hb hread
    unfold Dongle.commissionLoop
    rw [if_pos ht, if_pos hb, hread]

/-- Witness for C9: a boot-response frame (high command byte 0x40) never
ends the loop, while a genuine broadcast frame (command 0xA013) received at
2 seconds does, with its network id recorded. -/
theorem c9_loop_exit_on_high_byte_witness :
    Dongle.commissionLoop [(0, ⟨0x02, 0x40, 0x84, 0x16, []⟩)] = .deadline
    ∧ Dongle.commissionLoop
        [(2, ⟨0x02, 0xA0, 0x13, 0x0B,
              [0x00, 0x10, 0, 0, 0, 0, 0, 0, 0, 2, 0x01, 0x00]⟩)]
      = .found
          { header := 0x02, command := 0xA013, payload_length := 0x0B,
            network_id := 0x10, device_id := 2, data := 1, checksum := 0 } :=
  ⟨c9_loop_exit_on_high_byte.1 [(0, ⟨0x02, 0x40, 0x84, 0x16, []⟩)] (by decide),
   c9_loop_exit_on_high_byte.2 2
     ⟨0x02, 0xA0, 0x13, 0x0B, [0x00, 0x10, 0, 0, 0, 0, 0, 0, 0, 2, 0x01, 0x00]⟩
     []
     (RxFrame.bytes ⟨0x02, 0xA0, 0x13, 0x0B,
        [0x00, 0x10, 0, 0, 0, 0, 0, 0, 0, 2, 0x01, 0x00]⟩)
     { header := 0x02, command := 0xA013, payload_length := 0x0B,
       network_id := 0x10, device_id := 2, data := 1, checksum := 0 }
     (by decide) (by decide) (by decide)⟩

/-- Counterexample to claim C10: a successful decode is claimed to consume
the frame's full length, but `BootConfirmResponse::read` on its exact
6-byte frame returns the entire input as the remaining component — zero
bytes consumed, not six. -/
theorem c10_successful_decode_consumes_nothing :
    BootConfirmResponse.read BootConfirmResponse.new.as_bytes
      = .ok BootConfirmResponse.new.as_bytes BootConfirmResponse.new
    ∧ BootConfirmResponse.new.as_bytes.length = 6 := by decide

/-- Claim C10 (amended): whenever a decode succeeds, the remaining-input
component it reports is the entire original buffer — the reader consumes
zero bytes, reading its fields at fixed offsets without advancing the
input. -/
theorem c10_read_returns_full_input :
    (∀ (input rem : List Nat) (r : BootConfirmResponse),
      BootConfirmResponse.read input = .ok rem r → rem = input)
    ∧ (∀ (input rem : List Nat) (r : BootRequest),
      BootRequest.read input = .ok rem r → rem = input) := by
  constructor
  · intro input rem r h
    unfold BootConfirmResponse.read at h
    split at h
    · exact ReadResult.noConfusion h
    · injection h with h1 h2
      exact h1.symm
  · intro input rem r h
    unfold BootRequest.read at h
    split at h
    · exact ReadResult.noConfusion h
    · injection h with h1 h2
      exact h1.symm

/-- Witness for C10: on a concrete 6-byte all-zero buffer the successful
decode returns the whole buffer as the remaining component. -/
theorem c10_read_returns_full_input_witness :
    ([0, 0, 0, 0, 0, 0] : List Nat) = [0, 0, 0, 0, 0, 0] :=
  c10_read_returns_full_input.1 [0, 0, 0, 0, 0, 0] [0, 0, 0, 0, 0, 0]
    { header := 0, command := 0, payload_length := 0, data := 0, checksum := 0 }
    (by decide)
